import Mathlib

/-!
Verification development for the smpl sphere-collision subset.

Embedded source files:
* `sbpl_collision_checking/src/collision_operations.cpp` — `CheckSphereCollision`
* `smpl_test/src/test_scenario.cpp` — `GetCollisionCube`, `GetCollisionCubes`,
  `GetCollisionObjects`, `MakeRobotState`

Numeric convention: C++ `double` values are embedded as elements of a linear
ordered field (instantiated at `ℚ` for executable witnesses and at `ℝ` for the
geometric clearance theorems).
-/

/- Batteries marks the `Rat` field operations `@[irreducible]`, which blocks
`decide`-style evaluation of the embedded functions at concrete rationals;
restore the default reducibility locally so witnesses can be checked by the
kernel. -/
attribute [local semireducible] Rat.add Rat.mul Rat.inv Rat.sub Rat.ofScientific

/-- Modelled from the spec (§3, §4.3): the dynamic collision-sphere record
exposed by `RobotCollisionState::sphereState` after `updateSphereState`.
The C++ record holds a world-frame position `pos` and a pointer to its
`CollisionSphereModel` (whose `radius` and `name` fields are the ones read by
`CheckSphereCollision`); the model and state classes are not under `src/`, so
the record is flattened to the fields the query reads. -/
structure CollisionSphereState (α : Type) where
  x : α
  y : α
  z : α
  radius : α
  name : String
deriving DecidableEq

/-- Modelled from the spec (§4.3): `RobotCollisionState`, observed through
`updateSphereState`/`sphereState`.  The lazy forward-kinematics cache is not
under `src/`; per the spec its observable contract is that after
`updateSphereState(s)` the returned record is current, so the state is
embedded as the resolved map from sphere index to record. -/
def RobotCollisionState (α : Type) : Type := Nat → CollisionSphereState α

/-- Modelled from the spec (§3, §4.1): the `OccupancyGrid` / distance field.
Origin and resolution are world units; extents are held as cell counts; the
dense distance array is the function `stored`; `maxDistance` is the saturation
sentinel.  The grid class is not under `src/`. -/
structure OccupancyGrid (α : Type) where
  originX : α
  originY : α
  originZ : α
  res : α
  numCellsX : Int
  numCellsY : Int
  numCellsZ : Int
  stored : Int → Int → Int → α
  maxDistance : α

/-- Modelled from the spec (§4.1): `world_to_grid(x,y,z) → (gx,gy,gz)` with
`gx = floor((x − ox)/r)` and analogously; no clamping. -/
def OccupancyGrid.worldToGrid {α : Type} [LinearOrderedField α] [FloorRing α]
    (g : OccupancyGrid α) (wx wy wz : α) : Int × Int × Int :=
  (⌊(wx - g.originX) / g.res⌋, ⌊(wy - g.originY) / g.res⌋, ⌊(wz - g.originZ) / g.res⌋)

/-- Modelled from the spec (§4.1): `in_bounds` is a strict interval check
against the extents. -/
def OccupancyGrid.isInBounds {α : Type} (g : OccupancyGrid α)
    (gx gy gz : Int) : Bool :=
  decide (0 ≤ gx) && decide (gx < g.numCellsX) &&
  decide (0 ≤ gy) && decide (gy < g.numCellsY) &&
  decide (0 ≤ gz) && decide (gz < g.numCellsZ)

/-- Modelled from the spec (§4.1): `distance(gx,gy,gz)` returns the stored
value; callers pre-check bounds. -/
def OccupancyGrid.getDistance {α : Type} (g : OccupancyGrid α)
    (gx gy gz : Int) : α :=
  g.stored gx gy gz

/-- Modelled from the spec (§3): the grid resolution accessor. -/
def OccupancyGrid.getResolution {α : Type} (g : OccupancyGrid α) : α :=
  g.res

/-- Result of `CheckSphereCollision`: `valid` is the C++ return value (`true`
means the sphere is free of collision), `dist` is the `dist` output parameter,
and `diag` records whether the out-of-bounds diagnostic (`ROS_DEBUG_NAMED`)
was emitted. -/
structure CheckResult (α : Type) where
  valid : Bool
  dist : α
  diag : Bool
deriving DecidableEq

/-- The spec describes the query output as a `(collides, dist)` pair; the C++
return value is the validity flag, so `collides` is its negation. -/
def CheckResult.collides {α : Type} (r : CheckResult α) : Bool :=
  !r.valid

/-- Embedding of `CheckSphereCollision`
(`sbpl_collision_checking/src/collision_operations.cpp`, lines 41–74). -/
def checkSphereCollision {α : Type} [LinearOrderedField α] [FloorRing α]
    (grid : OccupancyGrid α) (state : RobotCollisionState α)
    (padding : α) (sidx : Nat) : CheckResult α :=
  let ss := state sidx
  let g3 := grid.worldToGrid ss.x ss.y ss.z
  if !(grid.isInBounds g3.1 g3.2.1 g3.2.2) then
    { valid := false, dist := 0, diag := true }
  else
    let obs_dist := grid.getDistance g3.1 g3.2.1 g3.2.2
    let effective_radius := ss.radius + (1/2) * grid.getResolution + padding
    if obs_dist ≤ effective_radius then
      { valid := false, dist := obs_dist, diag := false }
    else
      { valid := true, dist := obs_dist, diag := false }

/-- A concrete `3 × 3 × 3` grid over `ℚ` (origin 0, resolution 1, all stored
distances 10) used to instantiate the sphere-query theorems. -/
def gridQ : OccupancyGrid ℚ :=
  { originX := 0, originY := 0, originZ := 0, res := 1,
    numCellsX := 3, numCellsY := 3, numCellsZ := 3,
    stored := fun _ _ _ => 10, maxDistance := 10 }

/-- A collision state over `ℚ` whose every sphere sits at `(10,10,10)`,
outside `gridQ`. -/
def stateOutQ : RobotCollisionState ℚ :=
  fun _ => { x := 10, y := 10, z := 10, radius := 1, name := "s" }

/-- A collision state over `ℚ` whose every sphere sits at `(1/2,1/2,1/2)`,
inside `gridQ`. -/
def stateInQ : RobotCollisionState ℚ :=
  fun _ => { x := 1/2, y := 1/2, z := 1/2, radius := 1, name := "s" }

/-- A second in-bounds collision state over `ℚ`, differing from `stateInQ`
away from sphere index 0. -/
def stateInQ2 : RobotCollisionState ℚ :=
  fun i => if i = 0 then { x := 1/2, y := 1/2, z := 1/2, radius := 1, name := "s" }
           else { x := 2, y := 2, z := 2, radius := 3, name := "t" }

/-- C1: if a sphere's world-frame center maps to an out-of-bounds grid cell,
`CheckSphereCollision` reports a collision (`collides = true`) with distance 0
and emits the bounds diagnostic. -/
theorem checkSphereCollision_out_of_bounds {α : Type} [LinearOrderedField α]
    [FloorRing α] (grid : OccupancyGrid α) (state : RobotCollisionState α)
    (padding : α) (sidx : Nat)
    (h : grid.isInBounds
      (grid.worldToGrid (state sidx).x (state sidx).y (state sidx).z).1
      (grid.worldToGrid (state sidx).x (state sidx).y (state sidx).z).2.1
      (grid.worldToGrid (state sidx).x (state sidx).y (state sidx).z).2.2 = false) :
    (checkSphereCollision grid state padding sidx).collides = true ∧
    (checkSphereCollision grid state padding sidx).dist = 0 ∧
    (checkSphereCollision grid state padding sidx).diag = true := by
  simp only [checkSphereCollision, h, CheckResult.collides]
  simp

/-- Witness for C1 at a concrete grid and sphere. -/
theorem checkSphereCollision_out_of_bounds_witness :
    (gridQ.isInBounds
      (gridQ.worldToGrid (stateOutQ 0).x (stateOutQ 0).y (stateOutQ 0).z).1
      (gridQ.worldToGrid (stateOutQ 0).x (stateOutQ 0).y (stateOutQ 0).z).2.1
      (gridQ.worldToGrid (stateOutQ 0).x (stateOutQ 0).y (stateOutQ 0).z).2.2 = false) ∧
    ((checkSphereCollision gridQ stateOutQ 0 0).collides = true ∧
     (checkSphereCollision gridQ stateOutQ 0 0).dist = 0 ∧
     (checkSphereCollision gridQ stateOutQ 0 0).diag = true) :=
  have hg : gridQ.worldToGrid (stateOutQ 0).x (stateOutQ 0).y (stateOutQ 0).z
      = (10, 10, 10) := by
    norm_num [gridQ, stateOutQ, OccupancyGrid.worldToGrid]
  have hb : gridQ.isInBounds
      (gridQ.worldToGrid (stateOutQ 0).x (stateOutQ 0).y (stateOutQ 0).z).1
      (gridQ.worldToGrid (stateOutQ 0).x (stateOutQ 0).y (stateOutQ 0).z).2.1
      (gridQ.worldToGrid (stateOutQ 0).x (stateOutQ 0).y (stateOutQ 0).z).2.2
      = false := by
    rw [hg]; decide
  ⟨hb, checkSphereCollision_out_of_bounds gridQ stateOutQ 0 0 hb⟩

/-- C2: for an in-bounds center cell, `CheckSphereCollision` reports a
collision iff the stored grid distance is at most
`radius + 0.5 * resolution + padding`, and in both outcomes the returned
distance equals the stored grid value at that cell. -/
theorem checkSphereCollision_in_bounds {α : Type} [LinearOrderedField α]
    [FloorRing α] (grid : OccupancyGrid α) (state : RobotCollisionState α)
    (padding : α) (sidx : Nat)
    (h : grid.isInBounds
      (grid.worldToGrid (state sidx).x (state sidx).y (state sidx).z).1
      (grid.worldToGrid (state sidx).x (state sidx).y (state sidx).z).2.1
      (grid.worldToGrid (state sidx).x (state sidx).y (state sidx).z).2.2 = true) :
    ((checkSphereCollision grid state padding sidx).collides = true ↔
      grid.getDistance
        (grid.worldToGrid (state sidx).x (state sidx).y (state sidx).z).1
        (grid.worldToGrid (state sidx).x (state sidx).y (state sidx).z).2.1
        (grid.worldToGrid (state sidx).x (state sidx).y (state sidx).z).2.2 ≤
        (state sidx).radius + (1/2) * grid.getResolution + padding) ∧
    (checkSphereCollision grid state padding sidx).dist =
      grid.getDistance
        (grid.worldToGrid (state sidx).x (state sidx).y (state sidx).z).1
        (grid.worldToGrid (state sidx).x (state sidx).y (state sidx).z).2.1
        (grid.worldToGrid (state sidx).x (state sidx).y (state sidx).z).2.2 := by
  simp only [checkSphereCollision, h]
  split
  · next hout => simp at hout
  · split
    · next hle => exact ⟨iff_of_true rfl hle, rfl⟩
    · next hle => exact ⟨iff_of_false (fun hc => nomatch hc) hle, rfl⟩

/-- Witness for C2 at a concrete grid and sphere. -/
theorem checkSphereCollision_in_bounds_witness :
    (gridQ.isInBounds
      (gridQ.worldToGrid (stateInQ 0).x (stateInQ 0).y (stateInQ 0).z).1
      (gridQ.worldToGrid (stateInQ 0).x (stateInQ 0).y (stateInQ 0).z).2.1
      (gridQ.worldToGrid (stateInQ 0).x (stateInQ 0).y (stateInQ 0).z).2.2 = true) ∧
    (((checkSphereCollision gridQ stateInQ 0 0).collides = true ↔
      gridQ.getDistance
        (gridQ.worldToGrid (stateInQ 0).x (stateInQ 0).y (stateInQ 0).z).1
        (gridQ.worldToGrid (stateInQ 0).x (stateInQ 0).y (stateInQ 0).z).2.1
        (gridQ.worldToGrid (stateInQ 0).x (stateInQ 0).y (stateInQ 0).z).2.2 ≤
        (stateInQ 0).radius + (1/2) * gridQ.getResolution + 0) ∧
     (checkSphereCollision gridQ stateInQ 0 0).dist =
      gridQ.getDistance
        (gridQ.worldToGrid (stateInQ 0).x (stateInQ 0).y (stateInQ 0).z).1
        (gridQ.worldToGrid (stateInQ 0).x (stateInQ 0).y (stateInQ 0).z).2.1
        (gridQ.worldToGrid (stateInQ 0).x (stateInQ 0).y (stateInQ 0).z).2.2) :=
  have hg : gridQ.worldToGrid (stateInQ 0).x (stateInQ 0).y (stateInQ 0).z
      = (0, 0, 0) := by
    norm_num [gridQ, stateInQ, OccupancyGrid.worldToGrid]
  have hb : gridQ.isInBounds
      (gridQ.worldToGrid (stateInQ 0).x (stateInQ 0).y (stateInQ 0).z).1
      (gridQ.worldToGrid (stateInQ 0).x (stateInQ 0).y (stateInQ 0).z).2.1
      (gridQ.worldToGrid (stateInQ 0).x (stateInQ 0).y (stateInQ 0).z).2.2
      = true := by
    rw [hg]; decide
  ⟨hb, checkSphereCollision_in_bounds gridQ stateInQ 0 0 hb⟩

/-- C7: `CheckSphereCollision` is a deterministic function of the grid
contents, the queried sphere's state, the sphere index, and the padding: two
invocations whose grids are equal and whose states agree at the queried index
produce identical `(bool, dist)` outputs. -/
theorem checkSphereCollision_deterministic {α : Type} [LinearOrderedField α]
    [FloorRing α] (g1 g2 : OccupancyGrid α)
    (st1 st2 : RobotCollisionState α) (padding : α) (sidx : Nat)
    (hg : g1 = g2) (hst : st1 sidx = st2 sidx) :
    checkSphereCollision g1 st1 padding sidx =
      checkSphereCollision g2 st2 padding sidx := by
  subst hg
  simp only [checkSphereCollision, hst]

/-- Witness for C7: two states that agree at sphere 0 but differ elsewhere
give identical query results. -/
theorem checkSphereCollision_deterministic_witness :
    gridQ = gridQ ∧ stateInQ 0 = stateInQ2 0 ∧
    checkSphereCollision gridQ stateInQ 0 0 =
      checkSphereCollision gridQ stateInQ2 0 0 :=
  ⟨rfl, rfl,
    checkSphereCollision_deterministic gridQ gridQ stateInQ stateInQ2 0 0 rfl
      rfl⟩

/-- Diagnostics emitted by the scenario-loading path of
`smpl_test/src/test_scenario.cpp` (purely informational logs, such as the
object count, are not modelled). -/
inductive Diag where
  /-- "ERROR: unable to open objects file. Exiting." -/
  | openFail
  /-- "Parsed string has length < 1." -/
  | shortRead
  /-- "object id list is not same length as object list. exiting." -/
  | idLengthMismatch
deriving DecidableEq

/-- `moveit_msgs::CollisionObject` operation constants. -/
inductive Op where
  | ADD
  | REMOVE
  | APPEND
  | MOVE
deriving DecidableEq

/-- `shape_msgs::SolidPrimitive` type constants. -/
inductive PrimType where
  | BOX
  | SPHERE
  | CYLINDER
  | CONE
deriving DecidableEq

/-- `geometry_msgs::Point` with `double` coordinates embedded as `ℚ`. -/
structure PointMsg where
  x : ℚ
  y : ℚ
  z : ℚ
deriving DecidableEq

/-- `geometry_msgs::Quaternion`. -/
structure QuatMsg where
  x : ℚ
  y : ℚ
  z : ℚ
  w : ℚ
deriving DecidableEq

/-- `geometry_msgs::Pose`. -/
structure PoseMsg where
  position : PointMsg
  orientation : QuatMsg
deriving DecidableEq

/-- `shape_msgs::SolidPrimitive`. -/
structure SolidPrimitive where
  type : PrimType
  dimensions : List ℚ
deriving DecidableEq

/-- `moveit_msgs::CollisionObject` restricted to the fields the embedded
functions write (`header.stamp`, set from the wall clock, is not modelled). -/
structure CollisionObject where
  id : String
  frame_id : String
  operation : Op
  primitives : List SolidPrimitive
  primitive_poses : List PoseMsg
deriving DecidableEq

/-- Whitespace characters recognised by `fscanf`/`strtol`/`strtod`. -/
def isSpaceChar (c : Char) : Bool :=
  c == ' ' || c == '\t' || c == '\n' || c == '\r'

/-- Value of one decimal digit character. -/
def digVal (c : Char) : Nat := c.toNat - 48

/-- Value of a decimal digit string. -/
def digitsVal (s : List Char) : Nat :=
  s.foldl (fun a c => 10 * a + digVal c) 0

/-- C `atoi` on decimal tokens: optional leading whitespace, optional sign,
then the longest run of digits; 0 when no digits are present. -/
def atoiZ (t : String) : Int :=
  let s := t.data.dropWhile isSpaceChar
  match s with
  | [] => 0
  | c :: r =>
    if c = '-' then -(digitsVal (r.takeWhile Char.isDigit) : Int)
    else if c = '+' then (digitsVal (r.takeWhile Char.isDigit) : Int)
    else (digitsVal ((c :: r).takeWhile Char.isDigit) : Int)

/-- Value of a fractional digit string (the part after the decimal point). -/
def fracVal (s : List Char) : ℚ :=
  (digitsVal s : ℚ) / 10 ^ s.length

/-- C `atof` on decimal tokens: optional leading whitespace, optional sign,
digits, optionally a decimal point and more digits; 0 when no digits are
present.  Exponent, hexadecimal, infinity and NaN forms are not modelled (no
scenario token in this development uses them). -/
def atofQ (t : String) : ℚ :=
  let s := t.data.dropWhile isSpaceChar
  let signAndRest : ℚ × List Char :=
    match s with
    | [] => (1, [])
    | c :: r =>
      if c = '-' then (-1, r)
      else if c = '+' then (1, r)
      else (1, c :: r)
  let ipart := signAndRest.2.takeWhile Char.isDigit
  let rest := signAndRest.2.dropWhile Char.isDigit
  let fpart :=
    match rest with
    | '.' :: r => r.takeWhile Char.isDigit
    | _ => []
  signAndRest.1 * ((digitsVal ipart : ℚ) + fracVal fpart)

/-- A scenario file, abstracted to the token level seen through
`fscanf("%s")`: the list of whitespace-separated tokens, plus whether the
file ends with trailing whitespace (which decides whether reading the last
token already raises the stream's end-of-file flag). -/
structure FileTokens where
  tokens : List String
  trailingWS : Bool

/-- The reader state threaded through `GetCollisionObjects`: the stream
position and end-of-file flag of `fCfg`, the `sTemp` buffer (which keeps its
previous contents when a read fails), and the diagnostics printed so far. -/
structure RState where
  pos : Nat
  eof : Bool
  buf : String
  diags : List Diag

/-- One `fscanf(fCfg, "%s", sTemp)` call: on success the token is stored in
the buffer (setting the eof flag when the token is the last one and the file
has no trailing whitespace); at end of file the call fails, leaves the buffer
unchanged, sets the eof flag, and the caller prints the short-read
diagnostic. -/
def readTok (f : FileTokens) (s : RState) : RState × Bool :=
  match f.tokens.get? s.pos with
  | some t =>
    ({ s with
        pos := s.pos + 1
        buf := t
        eof := s.eof || (s.pos + 1 == f.tokens.length && !f.trailingWS) }, true)
  | none =>
    ({ s with eof := true, diags := s.diags ++ [Diag.shortRead] }, false)

/-- One iteration of the inner field loop of `GetCollisionObjects`
(`test_scenario.cpp` lines 216–225): read a token; assign
`objects[i][j] = atof(sTemp)` only when the stream is not at end of file and
the buffer is nonempty. -/
def readField (f : FileTokens) (acc : RState × List ℚ) (j : Nat) :
    RState × List ℚ :=
  let s1 := (readTok f acc.1).1
  if s1.eof = false ∧ s1.buf ≠ "" then (s1, acc.2.set j (atofQ s1.buf))
  else (s1, acc.2)

/-- One iteration of the outer object loop of `GetCollisionObjects`
(`test_scenario.cpp` lines 210–226): read the id token (pushed even when the
read failed, reusing the stale buffer), then read the six numeric fields into
a zero-initialised row. -/
def readRecord (f : FileTokens) (s : RState) : RState × String × List ℚ :=
  let s1 := (readTok f s).1
  let id := s1.buf
  let sr := (List.range 6).foldl (readField f) (s1, List.replicate 6 0)
  (sr.1, id, sr.2)

/-- Embedding of `GetCollisionCube` (`test_scenario.cpp` lines 119–143). -/
def GetCollisionCube (pose : PoseMsg) (dims : List ℚ) (frame_id : String)
    (id : String) : CollisionObject :=
  { id := id, frame_id := frame_id, operation := Op.ADD,
    primitives := [{ type := PrimType.BOX,
                     dimensions := [dims.getD 0 0, dims.getD 1 0, dims.getD 2 0] }],
    primitive_poses := [pose] }

/-- Embedding of `GetCollisionCubes` (`test_scenario.cpp` lines 145–176):
mismatched list lengths yield a diagnostic and an empty result; otherwise the
index loop over the parallel lists is expressed as a map over their zip. -/
def GetCollisionCubes (objects : List (List ℚ)) (object_ids : List String)
    (frame_id : String) : List Diag × List CollisionObject :=
  if object_ids.length ≠ objects.length then ([Diag.idLengthMismatch], [])
  else
    ([], (objects.zip object_ids).map fun ro =>
      GetCollisionCube
        { position := { x := ro.1.getD 0 0, y := ro.1.getD 1 0, z := ro.1.getD 2 0 },
          orientation := { x := 0, y := 0, z := 0, w := 1 } }
        [ro.1.getD 3 0, ro.1.getD 4 0, ro.1.getD 5 0] frame_id ro.2)

deriving instance DecidableEq for Except

/-- The failure `std::vector::resize` raises when the requested count exceeds
`max_size()`. -/
inductive ScenError where
  | resizeTooLarge
deriving DecidableEq

/-- `std::vector<std::vector<double>>::max_size()` under the libstdc++ model:
`PTRDIFF_MAX` divided by the 24-byte element size. -/
def vectorMaxSize : Nat := (2 ^ 63 - 1) / 24

/-- Embedding of `GetCollisionObjects` (`test_scenario.cpp` lines 178–228).
A missing file (`file = none`) yields the open diagnostic and an empty list.
Otherwise the declared count is read with `atoi`; `objects.resize(num_obs)`
converts the `int` count to `size_t` (reduction modulo `2^64`, so a negative
count becomes huge) and throws when it exceeds `max_size()`.  `sTemp0` is the
initial contents of the uninitialised `sTemp` buffer; no theorem depends on
its value. -/
def GetCollisionObjects (file : Option FileTokens) (frame_id : String)
    (sTemp0 : String) : List Diag × Except ScenError (List CollisionObject) :=
  match file with
  | none => ([Diag.openFail], Except.ok [])
  | some f =>
    let s0 : RState := { pos := 0, eof := false, buf := sTemp0, diags := [] }
    let s1 := (readTok f s0).1
    let num_obs : Int := atoiZ s1.buf
    let count : Nat := (num_obs % (2 ^ 64)).toNat
    if vectorMaxSize < count then (s1.diags, Except.error ScenError.resizeTooLarge)
    else
      let step := fun (acc : RState × List String × List (List ℚ)) (_ : Nat) =>
        let sir := readRecord f acc.1
        (sir.1, acc.2.1 ++ [sir.2.1], acc.2.2 ++ [sir.2.2])
      let fin := (List.range count).foldl step (s1, [], [])
      let cubes := GetCollisionCubes fin.2.2 fin.2.1 frame_id
      (fin.1.diags ++ cubes.1, Except.ok cubes.2)

/-- The inner search loop of `MakeRobotState` (`test_scenario.cpp` lines
536–543): scan the message's joint names in order and return the position of
the first entry matching `var_name`. -/
def lookupJoint (joints : List (String × ℚ)) (var_name : String) : Option ℚ :=
  match joints with
  | [] => none
  | (n, p) :: rest => if n = var_name then some p else lookupJoint rest var_name

/-- The outer loop of `MakeRobotState`: walk the planning joints in model
order, appending each found position; a missing joint aborts with
`([], false)`. -/
def MakeRobotStateLoop (joints : List (String × ℚ)) :
    List String → List ℚ → List ℚ × Bool
  | [], state => (state, true)
  | v :: rest, state =>
    match lookupJoint joints v with
    | none => ([], false)
    | some p => MakeRobotStateLoop joints rest (state ++ [p])

/-- Embedding of `MakeRobotState` (`test_scenario.cpp` lines 529–551).  The
message's parallel `joint_state.name`/`joint_state.position` arrays are
embedded as one list of name–position pairs. -/
def MakeRobotState (robot_state : List (String × ℚ))
    (planning_joints : List String) : List ℚ × Bool :=
  MakeRobotStateLoop robot_state planning_joints []

/-- The spec's concrete scenario file
`2\nbox1 0 0 0 0.1 0.1 0.1\nbox2 1 0 0 0.2 0.2 0.2\n`, tokenised; the
trailing newline means the stream eof flag is not raised while reading the
last token. -/
def fileTwoBoxes : FileTokens :=
  { tokens := ["2", "box1", "0", "0", "0", "0.1", "0.1", "0.1",
               "box2", "1", "0", "0", "0.2", "0.2", "0.2"],
    trailingWS := true }

/-- A scenario file that declares two records but contains none (a short
read). -/
def fileShort : FileTokens :=
  { tokens := ["2"], trailingWS := true }

/-- A scenario file whose `x` field token `5` has no decimal point. -/
def fileNoDot : FileTokens :=
  { tokens := ["1", "box", "5", "0.0", "0.0", "1.0", "1.0", "1.0"],
    trailingWS := true }

/-- A scenario file whose declared object count is negative. -/
def fileNeg : FileTokens :=
  { tokens := ["-3"], trailingWS := true }

/-- C5: parsing the spec's two-box scenario file yields exactly the two
expected collision objects, with ids `box1`/`box2`, positions `(0,0,0)` and
`(1,0,0)`, and box dimensions `(0.1,0.1,0.1)` and `(0.2,0.2,0.2)`. -/
theorem getCollisionObjects_two_boxes :
    GetCollisionObjects (some fileTwoBoxes) "map" "" =
      ([], Except.ok
        [{ id := "box1", frame_id := "map", operation := Op.ADD,
           primitives := [{ type := PrimType.BOX,
                            dimensions := [1/10, 1/10, 1/10] }],
           primitive_poses := [{ position := { x := 0, y := 0, z := 0 },
                                 orientation := { x := 0, y := 0, z := 0, w := 1 } }] },
         { id := "box2", frame_id := "map", operation := Op.ADD,
           primitives := [{ type := PrimType.BOX,
                            dimensions := [1/5, 1/5, 1/5] }],
           primitive_poses := [{ position := { x := 1, y := 0, z := 0 },
                                 orientation := { x := 0, y := 0, z := 0, w := 1 } }] }]) := by
  decide

/-- C4 counterexample: on the short-read file that declares two records but
contains none, `GetCollisionObjects` does not return an empty object set; it
returns two fabricated objects whose ids reuse the stale token buffer and
whose numeric fields are zero. -/
theorem getCollisionObjects_short_read_not_empty :
    GetCollisionObjects (some fileShort) "map" "" =
      (List.replicate 14 Diag.shortRead, Except.ok
        [{ id := "2", frame_id := "map", operation := Op.ADD,
           primitives := [{ type := PrimType.BOX, dimensions := [0, 0, 0] }],
           primitive_poses := [{ position := { x := 0, y := 0, z := 0 },
                                 orientation := { x := 0, y := 0, z := 0, w := 1 } }] },
         { id := "2", frame_id := "map", operation := Op.ADD,
           primitives := [{ type := PrimType.BOX, dimensions := [0, 0, 0] }],
           primitive_poses := [{ position := { x := 0, y := 0, z := 0 },
                                 orientation := { x := 0, y := 0, z := 0, w := 1 } }] }]) ∧
    (GetCollisionObjects (some fileShort) "map" "").2 ≠ Except.ok [] := by
  constructor
  · decide
  · decide

/-- C4 amended: only the missing-file error returns an empty collision-object
set with a diagnostic; short reads emit a diagnostic per failed token read but
still return the declared number of objects. -/
theorem getCollisionObjects_missing_file (frame_id sTemp0 : String) :
    GetCollisionObjects none frame_id sTemp0 = ([Diag.openFail], Except.ok []) :=
  rfl

/-- C6 counterexample: the record field token `5` contains no decimal point,
yet the parser reads it as the written number 5 — the object produced from
`fileNoDot` has position `x = 5`.  A decimal point is therefore not required
for a numeric value to be read. -/
theorem scenario_value_read_without_decimal_point :
    ('.' ∉ "5".data) ∧ atofQ "5" = 5 ∧
    (GetCollisionObjects (some fileNoDot) "map" "").2 =
      Except.ok
        [{ id := "box", frame_id := "map", operation := Op.ADD,
           primitives := [{ type := PrimType.BOX, dimensions := [1, 1, 1] }],
           primitive_poses := [{ position := { x := 5, y := 0, z := 0 },
                                 orientation := { x := 0, y := 0, z := 0, w := 1 } }] }] :=
  ⟨by decide, by decide, by decide⟩

/-- A digit character is not scanner whitespace. -/
theorem isSpaceChar_eq_false_of_isDigit (c : Char) (h : c.isDigit = true) :
    isSpaceChar c = false := by
  rcases hsp : isSpaceChar c with _ | _
  · rfl
  · exfalso
    simp only [isSpaceChar, Bool.or_eq_true, beq_iff_eq] at hsp
    rcases hsp with ((h1 | h1) | h1) | h1 <;> subst h1 <;> exact absurd h (by decide)

/-- C6 amended: a record field token consisting solely of decimal digits — no
decimal point — is read by the parser's `atof` as the written number. -/
theorem atofQ_digits_only (s : List Char) (hne : s ≠ [])
    (hdig : ∀ c ∈ s, c.isDigit = true) :
    atofQ (String.mk s) = (digitsVal s : ℚ) := by
  obtain ⟨c, rest, rfl⟩ : ∃ c rest, s = c :: rest := by
    cases s with
    | nil => exact absurd rfl hne
    | cons c rest => exact ⟨c, rest, rfl⟩
  have hc : c.isDigit = true := hdig c (by simp)
  have hdrop : (c :: rest).dropWhile isSpaceChar = c :: rest :=
    List.dropWhile_cons_of_neg (by simp [isSpaceChar_eq_false_of_isDigit c hc])
  have hminus : c ≠ '-' := fun e => by subst e; exact absurd hc (by decide)
  have hplus : c ≠ '+' := fun e => by subst e; exact absurd hc (by decide)
  have htake : (c :: rest).takeWhile Char.isDigit = c :: rest :=
    List.takeWhile_eq_self_iff.mpr hdig
  have hdropd : (c :: rest).dropWhile Char.isDigit = [] :=
    List.dropWhile_eq_nil_iff.mpr hdig
  show atofQ (String.mk (c :: rest)) = _
  unfold atofQ
  simp only [String.mk, hdrop]
  simp only [if_neg hminus, if_neg hplus]
  simp only [htake, hdropd]
  simp [fracVal, digitsVal]

/-- Witness for the amended C6 theorem at the token `5`. -/
theorem atofQ_digits_only_witness :
    (['5'] ≠ ([] : List Char)) ∧ (∀ c ∈ ['5'], c.isDigit = true) ∧
    atofQ (String.mk ['5']) = (digitsVal ['5'] : ℚ) :=
  ⟨by decide, by decide, atofQ_digits_only ['5'] (by decide) (by decide)⟩

/-- Every object built by `GetCollisionCubes` is an ADD of a single BOX
primitive posed with the identity quaternion. -/
theorem mem_getCollisionCubes_shape (rows : List (List ℚ))
    (ids : List String) (frame_id : String) (obj : CollisionObject)
    (hmem : obj ∈ (GetCollisionCubes rows ids frame_id).2) :
    obj.operation = Op.ADD ∧
    (∃ dims, obj.primitives = [{ type := PrimType.BOX, dimensions := dims }]) ∧
    (∃ pose, obj.primitive_poses = [pose] ∧
      pose.orientation = { x := 0, y := 0, z := 0, w := 1 }) := by
  unfold GetCollisionCubes at hmem
  split at hmem
  · cases hmem
  · simp only [List.mem_map] at hmem
    obtain ⟨ro, _, rfl⟩ := hmem
    exact ⟨rfl, ⟨_, rfl⟩, ⟨_, rfl, rfl⟩⟩

/-- C9: every collision object produced from a scenario file has operation
ADD, exactly one primitive (a BOX), and an identity orientation quaternion;
the scenario format cannot express rotated obstacles or remove operations. -/
theorem scenario_objects_box_add_identity (file : Option FileTokens)
    (frame_id sTemp0 : String) (objs : List CollisionObject)
    (hok : (GetCollisionObjects file frame_id sTemp0).2 = Except.ok objs)
    (obj : CollisionObject) (hmem : obj ∈ objs) :
    obj.operation = Op.ADD ∧
    (∃ dims, obj.primitives = [{ type := PrimType.BOX, dimensions := dims }]) ∧
    (∃ pose, obj.primitive_poses = [pose] ∧
      pose.orientation = { x := 0, y := 0, z := 0, w := 1 }) := by
  cases file with
  | none =>
    simp only [GetCollisionObjects, Except.ok.injEq] at hok
    subst hok
    cases hmem
  | some f =>
    simp only [GetCollisionObjects] at hok
    split at hok
    · cases hok
    · simp only [Except.ok.injEq] at hok
      subst hok
      exact mem_getCollisionCubes_shape _ _ _ obj hmem

/-- The first object of the spec's two-box scenario. -/
def boxObj1 : CollisionObject :=
  { id := "box1", frame_id := "map", operation := Op.ADD,
    primitives := [{ type := PrimType.BOX, dimensions := [1/10, 1/10, 1/10] }],
    primitive_poses := [{ position := { x := 0, y := 0, z := 0 },
                          orientation := { x := 0, y := 0, z := 0, w := 1 } }] }

/-- The second object of the spec's two-box scenario. -/
def boxObj2 : CollisionObject :=
  { id := "box2", frame_id := "map", operation := Op.ADD,
    primitives := [{ type := PrimType.BOX, dimensions := [1/5, 1/5, 1/5] }],
    primitive_poses := [{ position := { x := 1, y := 0, z := 0 },
                          orientation := { x := 0, y := 0, z := 0, w := 1 } }] }

/-- Witness for C9 on the spec's two-box scenario file. -/
theorem scenario_objects_box_add_identity_witness :
    ((GetCollisionObjects (some fileTwoBoxes) "map" "").2 =
      Except.ok [boxObj1, boxObj2]) ∧
    boxObj1 ∈ [boxObj1, boxObj2] ∧
    (boxObj1.operation = Op.ADD ∧
     (∃ dims, boxObj1.primitives = [{ type := PrimType.BOX, dimensions := dims }]) ∧
     (∃ pose, boxObj1.primitive_poses = [pose] ∧
       pose.orientation = { x := 0, y := 0, z := 0, w := 1 })) :=
  ⟨by decide, by decide,
    scenario_objects_box_add_identity (some fileTwoBoxes) "map" ""
      [boxObj1, boxObj2] (by decide) boxObj1 (by decide)⟩

/-- C10: the declared-count token decides whether `GetCollisionObjects`
completes.  The `int` count is converted to `size_t` without a sign check, so
a negative count becomes a huge request and `objects.resize` fails (rather
than the function returning an empty object set); a non-negative
(`int`-range) count lets the call return an object list. -/
theorem getCollisionObjects_negative_count_fails (f : FileTokens)
    (frame_id sTemp0 t : String) (rest : List String)
    (ht : f.tokens = t :: rest) :
    (atoiZ t < 0 → -(2 ^ 31) ≤ atoiZ t →
      (GetCollisionObjects (some f) frame_id sTemp0).2 =
        Except.error ScenError.resizeTooLarge) ∧
    (0 ≤ atoiZ t → atoiZ t ≤ 2 ^ 31 →
      ∃ objs, (GetCollisionObjects (some f) frame_id sTemp0).2 =
        Except.ok objs) := by
  have hbuf : ((readTok f { pos := 0, eof := false, buf := sTemp0, diags := [] }).1).buf
      = t := by
    simp [readTok, ht]
  constructor
  · intro hneg hlo
    have hcond : vectorMaxSize < ((atoiZ t) % (2 ^ 64)).toNat := by
      unfold vectorMaxSize
      omega
    simp only [GetCollisionObjects, hbuf]
    rw [if_pos hcond]
  · intro hpos hhi
    have hcond : ¬ (vectorMaxSize < ((atoiZ t) % (2 ^ 64)).toNat) := by
      unfold vectorMaxSize
      omega
    simp only [GetCollisionObjects, hbuf]
    rw [if_neg hcond]
    exact ⟨_, rfl⟩

/-- Witness for C10: the file whose count token is `-3` makes the call fail,
and the file whose count token is `0` completes. -/
theorem getCollisionObjects_negative_count_fails_witness :
    ((GetCollisionObjects (some fileNeg) "map" "").2 =
      Except.error ScenError.resizeTooLarge) ∧
    (∃ objs, (GetCollisionObjects (some { tokens := ["0"], trailingWS := true })
        "map" "").2 = Except.ok objs) :=
  ⟨(getCollisionObjects_negative_count_fails fileNeg "map" "" "-3" [] rfl).1
      (by decide) (by decide),
   (getCollisionObjects_negative_count_fails
      { tokens := ["0"], trailingWS := true } "map" "" "0" [] rfl).2
      (by decide) (by decide)⟩

/-- When every planning joint is present in the message, the loop of
`MakeRobotState` appends, in planning order, the position recorded under each
joint's name. -/
theorem MakeRobotStateLoop_all_found (joints : List (String × ℚ))
    (planning : List String) (acc : List ℚ)
    (h : ∀ v ∈ planning, (lookupJoint joints v).isSome = true) :
    MakeRobotStateLoop joints planning acc =
      (acc ++ planning.map (fun v => (lookupJoint joints v).getD 0), true) := by
  induction planning generalizing acc with
  | nil => simp [MakeRobotStateLoop]
  | cons v rest ih =>
    obtain ⟨p, hp⟩ := Option.isSome_iff_exists.mp (h v (by simp))
    simp only [MakeRobotStateLoop, hp]
    rw [ih (acc ++ [p]) (fun w hw => h w (by simp [hw]))]
    simp [hp]

/-- When some planning joint is missing from the message, the loop of
`MakeRobotState` returns the empty vector with the failure flag. -/
theorem MakeRobotStateLoop_missing (joints : List (String × ℚ))
    (planning : List String) (acc : List ℚ)
    (h : ∃ v ∈ planning, lookupJoint joints v = none) :
    MakeRobotStateLoop joints planning acc = ([], false) := by
  induction planning generalizing acc with
  | nil => obtain ⟨v, hv, _⟩ := h; cases hv
  | cons v rest ih =>
    obtain ⟨w, hw, hnone⟩ := h
    rcases List.mem_cons.mp hw with heq | hwrest
    · subst heq
      rw [MakeRobotStateLoop, hnone]
    · cases hlv : lookupJoint joints v with
      | none => rw [MakeRobotStateLoop, hlv]
      | some p =>
        rw [MakeRobotStateLoop, hlv]
        exact ih _ ⟨w, hwrest, hnone⟩

/-- C8: `MakeRobotState` either succeeds with exactly one entry per planning
joint, in the model's planning-joint order, each entry being the position the
message records under that joint's name; or, when some planning joint is
absent from the message, it returns the empty vector with the failure flag —
never a partial vector. -/
theorem MakeRobotState_spec (joints : List (String × ℚ))
    (planning : List String) :
    ((∀ v ∈ planning, (lookupJoint joints v).isSome = true) ∧
      MakeRobotState joints planning =
        (planning.map (fun v => (lookupJoint joints v).getD 0), true)) ∨
    ((∃ v ∈ planning, lookupJoint joints v = none) ∧
      MakeRobotState joints planning = ([], false)) := by
  by_cases h : ∀ v ∈ planning, (lookupJoint joints v).isSome = true
  · left
    refine ⟨h, ?_⟩
    have := MakeRobotStateLoop_all_found joints planning [] h
    simpa [MakeRobotState] using this
  · right
    push_neg at h
    obtain ⟨v, hv, hns⟩ := h
    have hnone : lookupJoint joints v = none := by
      cases hlv : lookupJoint joints v with
      | none => rfl
      | some p => exact absurd (by simp [hlv]) hns
    exact ⟨⟨v, hv, hnone⟩,
      MakeRobotStateLoop_missing joints planning [] ⟨v, hv, hnone⟩⟩

/-- Euclidean norm of a 3-vector of reals. -/
noncomputable def euclid3 (a b c : ℝ) : ℝ := Real.sqrt (a ^ 2 + b ^ 2 + c ^ 2)

/-- Euclidean distance between two world-frame points `(x,y,z)`. -/
noncomputable def pointDist (p q : ℝ × ℝ × ℝ) : ℝ :=
  euclid3 (p.1 - q.1) (p.2.1 - q.2.1) (p.2.2 - q.2.2)

/-- Euclidean distance between two grid cells, in cell units. -/
noncomputable def cellDist (c q : Int × Int × Int) : ℝ :=
  euclid3 ((c.1 : ℝ) - (q.1 : ℝ)) ((c.2.1 : ℝ) - (q.2.1 : ℝ))
    ((c.2.2 : ℝ) - (q.2.2 : ℝ))

/-- World coordinate of a cell's center along one axis. -/
noncomputable def cellCenter1 (o r : ℝ) (i : Int) : ℝ := o + ((i : ℝ) + 1 / 2) * r

/-- World-frame center of a grid cell. -/
noncomputable def cellCenter (g : OccupancyGrid ℝ) (c : Int × Int × Int) : ℝ × ℝ × ℝ :=
  (cellCenter1 g.originX g.res c.1, cellCenter1 g.originY g.res c.2.1,
    cellCenter1 g.originZ g.res c.2.2)

/-- The spec's distance-field invariant (§3): every in-bounds cell stores the
Euclidean world-unit distance to the nearest occupied cell, clamped to
`maxDistance`, stated as: the stored value is a lower bound on the distance to
every occupied cell, is at most `maxDistance`, and is attained either at the
clamp or at some occupied cell. -/
def DistanceFieldInvariant (g : OccupancyGrid ℝ)
    (occ : Int × Int × Int → Prop) : Prop :=
  ∀ c : Int × Int × Int, g.isInBounds c.1 c.2.1 c.2.2 = true →
    (∀ q, occ q → g.stored c.1 c.2.1 c.2.2 ≤ g.res * cellDist c q) ∧
    g.stored c.1 c.2.1 c.2.2 ≤ g.maxDistance ∧
    (g.stored c.1 c.2.1 c.2.2 = g.maxDistance ∨
      ∃ q, occ q ∧ g.stored c.1 c.2.1 c.2.2 = g.res * cellDist c q)

theorem euclid3_nonneg (a b c : ℝ) : 0 ≤ euclid3 a b c :=
  Real.sqrt_nonneg _

/-- Triangle inequality for `euclid3` via the three-variable Cauchy–Schwarz
inequality. -/
theorem euclid3_add_le (a1 a2 a3 b1 b2 b3 : ℝ) :
    euclid3 (a1 + b1) (a2 + b2) (a3 + b3) ≤
      euclid3 a1 a2 a3 + euclid3 b1 b2 b3 := by
  have hA : (0 : ℝ) ≤ a1 ^ 2 + a2 ^ 2 + a3 ^ 2 := by positivity
  have hB : (0 : ℝ) ≤ b1 ^ 2 + b2 ^ 2 + b3 ^ 2 := by positivity
  have hcs : a1 * b1 + a2 * b2 + a3 * b3 ≤
      Real.sqrt (a1 ^ 2 + a2 ^ 2 + a3 ^ 2) *
        Real.sqrt (b1 ^ 2 + b2 ^ 2 + b3 ^ 2) := by
    rw [← Real.sqrt_mul hA]
    rcases le_or_lt (a1 * b1 + a2 * b2 + a3 * b3) 0 with hle | hpos
    · exact le_trans hle (Real.sqrt_nonneg _)
    · rw [Real.le_sqrt hpos.le (mul_nonneg hA hB)]
      nlinarith [sq_nonneg (a1 * b2 - a2 * b1), sq_nonneg (a1 * b3 - a3 * b1),
        sq_nonneg (a2 * b3 - a3 * b2)]
  unfold euclid3
  rw [Real.sqrt_le_iff]
  constructor
  · positivity
  · have e : (Real.sqrt (a1 ^ 2 + a2 ^ 2 + a3 ^ 2) +
        Real.sqrt (b1 ^ 2 + b2 ^ 2 + b3 ^ 2)) ^ 2 =
        (a1 ^ 2 + a2 ^ 2 + a3 ^ 2) +
          2 * Real.sqrt (a1 ^ 2 + a2 ^ 2 + a3 ^ 2) *
            Real.sqrt (b1 ^ 2 + b2 ^ 2 + b3 ^ 2) +
          (b1 ^ 2 + b2 ^ 2 + b3 ^ 2) := by
      rw [add_sq, Real.sq_sqrt hA, Real.sq_sqrt hB]
    calc (a1 + b1) ^ 2 + (a2 + b2) ^ 2 + (a3 + b3) ^ 2
        = (a1 ^ 2 + a2 ^ 2 + a3 ^ 2) + 2 * (a1 * b1 + a2 * b2 + a3 * b3) +
          (b1 ^ 2 + b2 ^ 2 + b3 ^ 2) := by ring
      _ ≤ (a1 ^ 2 + a2 ^ 2 + a3 ^ 2) +
          2 * Real.sqrt (a1 ^ 2 + a2 ^ 2 + a3 ^ 2) *
            Real.sqrt (b1 ^ 2 + b2 ^ 2 + b3 ^ 2) +
          (b1 ^ 2 + b2 ^ 2 + b3 ^ 2) := by linarith
      _ = _ := e.symm

/-- Distance form of the triangle inequality. -/
theorem pointDist_triangle (p q r : ℝ × ℝ × ℝ) :
    pointDist p r ≤ pointDist p q + pointDist q r := by
  have h := euclid3_add_le (p.1 - q.1) (p.2.1 - q.2.1) (p.2.2 - q.2.2)
    (q.1 - r.1) (q.2.1 - r.2.1) (q.2.2 - r.2.2)
  simpa [pointDist, sub_add_sub_cancel] using h

/-- `pointDist` is symmetric. -/
theorem pointDist_comm (p q : ℝ × ℝ × ℝ) : pointDist p q = pointDist q p := by
  unfold pointDist euclid3
  ring_nf

/-- Scaling a 3-vector scales its norm by the absolute factor. -/
theorem euclid3_smul (k a b c : ℝ) :
    euclid3 (k * a) (k * b) (k * c) = |k| * euclid3 a b c := by
  unfold euclid3
  rw [show (k * a) ^ 2 + (k * b) ^ 2 + (k * c) ^ 2 =
    k ^ 2 * (a ^ 2 + b ^ 2 + c ^ 2) by ring]
  rw [Real.sqrt_mul (sq_nonneg k), Real.sqrt_sq_eq_abs]

/-- Componentwise bound: a 3-vector whose coordinates are at most `m` in
absolute value has norm at most `√3 * m`. -/
theorem euclid3_le_sqrt_three_mul (a b c m : ℝ) (ha : |a| ≤ m) (hb : |b| ≤ m)
    (hc : |c| ≤ m) : euclid3 a b c ≤ Real.sqrt 3 * m := by
  have hm : 0 ≤ m := le_trans (abs_nonneg a) ha
  have h1 : a ^ 2 ≤ m ^ 2 := sq_le_sq' (by linarith [abs_le.mp ha]) (abs_le.mp ha).2
  have h2 : b ^ 2 ≤ m ^ 2 := sq_le_sq' (by linarith [abs_le.mp hb]) (abs_le.mp hb).2
  have h3 : c ^ 2 ≤ m ^ 2 := sq_le_sq' (by linarith [abs_le.mp hc]) (abs_le.mp hc).2
  calc euclid3 a b c ≤ Real.sqrt (3 * m ^ 2) := by
        unfold euclid3
        exact Real.sqrt_le_sqrt (by linarith)
    _ = Real.sqrt 3 * m := by
        rw [Real.sqrt_mul (by norm_num), Real.sqrt_sq hm]

/-- Worst-case offset of a point from the center of its containing cell: half
the resolution along each axis. -/
theorem abs_sub_cellCenter1_floor_le (o r p : ℝ) (hr : 0 < r) :
    |p - cellCenter1 o r ⌊(p - o) / r⌋| ≤ r / 2 := by
  set t := (p - o) / r with ht
  have htr : t * r = p - o := div_mul_cancel₀ _ hr.ne'
  have hkey : p - cellCenter1 o r ⌊t⌋ = (t - ⌊t⌋) * r - r / 2 := by
    unfold cellCenter1
    have : p - (o + ((⌊t⌋ : ℝ) + 1 / 2) * r)
        = (p - o) - ((⌊t⌋ : ℝ) + 1 / 2) * r := by ring
    rw [this, ← htr]
    ring
  have h0 : 0 ≤ (t - ⌊t⌋) * r :=
    mul_nonneg (by linarith [Int.floor_le t]) hr.le
  have h1 : (t - ⌊t⌋) * r ≤ r := by
    have hle : t - ⌊t⌋ ≤ 1 := by linarith [Int.lt_floor_add_one t]
    calc (t - ⌊t⌋) * r ≤ 1 * r := mul_le_mul_of_nonneg_right hle hr.le
      _ = r := one_mul r
  rw [hkey, abs_le]
  constructor <;> linarith

/-- C3 amended: under the distance-field invariant, a collision-free report
`(collides = false, dist = d)` guarantees that the sphere center is at least
`d − (√3/2)·r` from (the center of) every occupied cell.  The guard is
`(√3/2)·r`, the worst-case Euclidean offset of a point from its cell's
center — not the claimed `r/2`, which only bounds the per-axis offset. -/
theorem checkSphereCollision_half_cell_guard (g : OccupancyGrid ℝ)
    (occ : Int × Int × Int → Prop) (state : RobotCollisionState ℝ)
    (padding : ℝ) (sidx : Nat) (hres : 0 < g.res)
    (hinv : DistanceFieldInvariant g occ)
    (hvalid : (checkSphereCollision g state padding sidx).valid = true) :
    ∀ q, occ q →
      (checkSphereCollision g state padding sidx).dist -
          Real.sqrt 3 / 2 * g.res ≤
        pointDist ((state sidx).x, (state sidx).y, (state sidx).z)
          (cellCenter g q) := by
  intro q hq
  revert hvalid
  simp only [checkSphereCollision]
  split
  · next hout =>
    intro hvalid
    exact absurd hvalid (by simp)
  · next hout =>
    split
    · next hle =>
      intro hvalid
      exact absurd hvalid (by simp)
    · next hle =>
      intro _
      set w := g.worldToGrid (state sidx).x (state sidx).y (state sidx).z with hw
      have hb : g.isInBounds w.1 w.2.1 w.2.2 = true := by
        cases hiB : g.isInBounds w.1 w.2.1 w.2.2 with
        | false => rw [hiB] at hout; simp at hout
        | true => rfl
      have hstored : g.stored w.1 w.2.1 w.2.2 ≤ g.res * cellDist w q :=
        (hinv w hb).1 q hq
      have h2 : pointDist (cellCenter g w) (cellCenter g q)
          = g.res * cellDist w q := by
        have e1 : cellCenter1 g.originX g.res w.1 - cellCenter1 g.originX g.res q.1
            = g.res * ((w.1 : ℝ) - (q.1 : ℝ)) := by unfold cellCenter1; ring
        have e2 : cellCenter1 g.originY g.res w.2.1 - cellCenter1 g.originY g.res q.2.1
            = g.res * ((w.2.1 : ℝ) - (q.2.1 : ℝ)) := by unfold cellCenter1; ring
        have e3 : cellCenter1 g.originZ g.res w.2.2 - cellCenter1 g.originZ g.res q.2.2
            = g.res * ((w.2.2 : ℝ) - (q.2.2 : ℝ)) := by unfold cellCenter1; ring
        show euclid3
            (cellCenter1 g.originX g.res w.1 - cellCenter1 g.originX g.res q.1)
            (cellCenter1 g.originY g.res w.2.1 - cellCenter1 g.originY g.res q.2.1)
            (cellCenter1 g.originZ g.res w.2.2 - cellCenter1 g.originZ g.res q.2.2)
            = g.res * cellDist w q
        rw [e1, e2, e3, euclid3_smul, abs_of_pos hres]
        rfl
      have h3 := pointDist_triangle (cellCenter g w)
        ((state sidx).x, (state sidx).y, (state sidx).z) (cellCenter g q)
      have h4 : pointDist ((state sidx).x, (state sidx).y, (state sidx).z)
          (cellCenter g w) ≤ Real.sqrt 3 * (g.res / 2) := by
        show euclid3
            ((state sidx).x - cellCenter1 g.originX g.res w.1)
            ((state sidx).y - cellCenter1 g.originY g.res w.2.1)
            ((state sidx).z - cellCenter1 g.originZ g.res w.2.2)
            ≤ Real.sqrt 3 * (g.res / 2)
        have hw1 : w.1 = ⌊((state sidx).x - g.originX) / g.res⌋ := by
          rw [hw]; rfl
        have hw2 : w.2.1 = ⌊((state sidx).y - g.originY) / g.res⌋ := by
          rw [hw]; rfl
        have hw3 : w.2.2 = ⌊((state sidx).z - g.originZ) / g.res⌋ := by
          rw [hw]; rfl
        apply euclid3_le_sqrt_three_mul
        · rw [hw1]
          exact abs_sub_cellCenter1_floor_le g.originX g.res (state sidx).x hres
        · rw [hw2]
          exact abs_sub_cellCenter1_floor_le g.originY g.res (state sidx).y hres
        · rw [hw3]
          exact abs_sub_cellCenter1_floor_le g.originZ g.res (state sidx).z hres
      have h5 := pointDist_comm (cellCenter g w)
        ((state sidx).x, (state sidx).y, (state sidx).z)
      show g.getDistance w.1 w.2.1 w.2.2 - Real.sqrt 3 / 2 * g.res ≤ _
      unfold OccupancyGrid.getDistance
      linarith

/-- A `2 × 2 × 2` grid over `ℝ` (origin 0, resolution 1) whose stored values
are exactly the clamped Euclidean distances to the single occupied cell
`(0,0,0)`. -/
noncomputable def gridCE : OccupancyGrid ℝ :=
  { originX := 0, originY := 0, originZ := 0, res := 1,
    numCellsX := 2, numCellsY := 2, numCellsZ := 2,
    stored := fun a b c => min 10 (euclid3 (a : ℝ) (b : ℝ) (c : ℝ)),
    maxDistance := 10 }

/-- The occupancy of `gridCE`: only cell `(0,0,0)` is occupied. -/
def occCE : Int × Int × Int → Prop := fun q => q = (0, 0, 0)

/-- A collision state placing the sphere center at the cell corner
`(1,1,1)`. -/
def stateCE : RobotCollisionState ℝ :=
  fun _ => { x := 1, y := 1, z := 1, radius := 1, name := "s" }

/-- `gridCE` satisfies the distance-field invariant for `occCE`. -/
theorem gridCE_satisfies_invariant : DistanceFieldInvariant gridCE occCE := by
  intro c _
  have hcd : cellDist c (0, 0, 0)
      = euclid3 ((c.1 : ℝ)) ((c.2.1 : ℝ)) ((c.2.2 : ℝ)) := by
    unfold cellDist
    norm_num
  refine ⟨?_, ?_, ?_⟩
  · intro q hq
    rcases hq with rfl
    show min 10 (euclid3 (c.1 : ℝ) (c.2.1 : ℝ) (c.2.2 : ℝ))
        ≤ gridCE.res * cellDist c (0, 0, 0)
    rw [hcd, show gridCE.res = 1 from rfl, one_mul]
    exact min_le_right _ _
  · exact min_le_left _ _
  · rcases min_choice (10 : ℝ)
        (euclid3 (c.1 : ℝ) (c.2.1 : ℝ) (c.2.2 : ℝ)) with hl | hr
    · exact Or.inl hl
    · refine Or.inr ⟨(0, 0, 0), rfl, ?_⟩
      show min 10 (euclid3 (c.1 : ℝ) (c.2.1 : ℝ) (c.2.2 : ℝ))
          = gridCE.res * cellDist c (0, 0, 0)
      rw [hcd, show gridCE.res = 1 from rfl, one_mul]
      exact hr

/-- Evaluation of the sphere query on `gridCE` at the sphere of `stateCE`:
cell `(1,1,1)` is in bounds, its stored distance is `√3`, and `√3` exceeds
the effective radius `1.5`, so the sphere is reported collision-free with
distance `√3`. -/
theorem checkSphereCollision_gridCE_eval :
    checkSphereCollision gridCE stateCE 0 0
      = { valid := true, dist := Real.sqrt 3, diag := false } := by
  have hwg : gridCE.worldToGrid (stateCE 0).x (stateCE 0).y (stateCE 0).z
      = (1, 1, 1) := by
    norm_num [gridCE, stateCE, OccupancyGrid.worldToGrid]
  have hs3 : Real.sqrt 3 ≤ 10 := by
    rw [Real.sqrt_le_iff]
    norm_num
  have hmin : gridCE.stored 1 1 1 = Real.sqrt 3 := by
    show min 10 (euclid3 ((1 : Int) : ℝ) ((1 : Int) : ℝ) ((1 : Int) : ℝ))
        = Real.sqrt 3
    have he : euclid3 ((1 : Int) : ℝ) ((1 : Int) : ℝ) ((1 : Int) : ℝ)
        = Real.sqrt 3 := by
      unfold euclid3
      norm_num
    rw [he]
    exact min_eq_right hs3
  have hgt : ¬ (gridCE.getDistance 1 1 1
      ≤ (stateCE 0).radius + (1 / 2 : ℝ) * gridCE.getResolution + 0) := by
    have h32 : (3 / 2 : ℝ) < Real.sqrt 3 := by
      rw [Real.lt_sqrt (by norm_num)]
      norm_num
    show ¬ (gridCE.stored 1 1 1 ≤ _)
    rw [hmin]
    simp only [stateCE, OccupancyGrid.getResolution,
      show gridCE.res = 1 from rfl]
    norm_num
    linarith
  simp only [checkSphereCollision, hwg]
  rw [if_neg (by decide), if_neg hgt]
  rw [show gridCE.getDistance 1 1 1 = gridCE.stored 1 1 1 from rfl, hmin]

/-- C3 counterexample: on `gridCE` (which satisfies the distance-field
invariant exactly) the query at the sphere of `stateCE` reports
`(collides = false, dist = √3)`, yet the sphere center at the cell corner
`(1,1,1)` is only `√3/2 ≈ 0.866` from the occupied cell's center — strictly
less than the claimed guard `d − r/2 = √3 − 0.5 ≈ 1.232`. -/
theorem half_cell_guard_r_half_counterexample :
    0 < gridCE.res ∧
    DistanceFieldInvariant gridCE occCE ∧
    (checkSphereCollision gridCE stateCE 0 0).valid = true ∧
    occCE (0, 0, 0) ∧
    pointDist ((stateCE 0).x, (stateCE 0).y, (stateCE 0).z)
        (cellCenter gridCE (0, 0, 0)) <
      (checkSphereCollision gridCE stateCE 0 0).dist - gridCE.res / 2 := by
  refine ⟨by norm_num [gridCE], gridCE_satisfies_invariant,
    by rw [checkSphereCollision_gridCE_eval], rfl, ?_⟩
  rw [checkSphereCollision_gridCE_eval]
  have hpd : pointDist ((stateCE 0).x, (stateCE 0).y, (stateCE 0).z)
      (cellCenter gridCE (0, 0, 0)) = Real.sqrt (3 / 4) := by
    show euclid3 ((1 : ℝ) - cellCenter1 0 1 0) ((1 : ℝ) - cellCenter1 0 1 0)
        ((1 : ℝ) - cellCenter1 0 1 0) = Real.sqrt (3 / 4)
    unfold euclid3 cellCenter1
    norm_num
  have h34 : Real.sqrt (3 / 4) = Real.sqrt 3 / 2 := by
    rw [show (3 / 4 : ℝ) = 3 * (1 / 2) ^ 2 by norm_num,
      Real.sqrt_mul (by norm_num), Real.sqrt_sq (by norm_num)]
    ring
  have h13 : (1 : ℝ) < Real.sqrt 3 := by
    rw [Real.lt_sqrt (by norm_num)]
    norm_num
  rw [hpd, h34]
  show Real.sqrt 3 / 2 < Real.sqrt 3 - gridCE.res / 2
  rw [show gridCE.res = 1 from rfl]
  linarith

/-- Witness for the amended C3 theorem on `gridCE`: there the guarantee is
tight, `√3 − (√3/2)·1 = √3/2 =` the distance from `(1,1,1)` to
`(0.5, 0.5, 0.5)`. -/
theorem checkSphereCollision_half_cell_guard_witness :
    0 < gridCE.res ∧
    DistanceFieldInvariant gridCE occCE ∧
    (checkSphereCollision gridCE stateCE 0 0).valid = true ∧
    occCE (0, 0, 0) ∧
    ((checkSphereCollision gridCE stateCE 0 0).dist -
        Real.sqrt 3 / 2 * gridCE.res ≤
      pointDist ((stateCE 0).x, (stateCE 0).y, (stateCE 0).z)
        (cellCenter gridCE (0, 0, 0))) :=
  have hres : (0 : ℝ) < gridCE.res := by norm_num [gridCE]
  have hvalid : (checkSphereCollision gridCE stateCE 0 0).valid = true := by
    rw [checkSphereCollision_gridCE_eval]
  ⟨hres, gridCE_satisfies_invariant, hvalid, rfl,
    checkSphereCollision_half_cell_guard gridCE occCE stateCE 0 0 hres
      gridCE_satisfies_invariant hvalid (0, 0, 0) rfl⟩
